import Mathlib

/-!
Verification of the Missile Command simulation core.

Shallow embedding of the Python sources under `src/`:
  - `src/config.py`          : configuration constants
  - `src/models/missile.py`  : fixed-point math, ABM, ICBM, SmartBomb, Flier,
                               MissileSlotManager
  - `src/models/explosion.py`: Explosion, ExplosionManager
  - `src/models/city.py`     : City, CityManager
  - `src/models/defense.py`  : DefenseSilo, DefenseManager
  - `src/game.py`            : Game orchestrator

Python integers are embedded as `Int`; Python floor division (`//` and
arithmetic right shift `>>`) is `Int.fdiv`; Python `& 0xFF` on an arbitrary
integer equals `% 256` (`Int.emod`, always non-negative for a positive
modulus, exactly like Python).  Mutating methods become functions returning
the updated structure (paired with the Python return value where there is
one).
-/

namespace MC

-- ── src/config.py ──────────────────────────────────────────────────────────

def FIXED_POINT_SCALE : Int := 256

def MAX_ABM_SLOTS : Nat := 8

def MAX_ICBM_SLOTS : Nat := 8

def MAX_SMART_BOMBS : Nat := 2

def MAX_EXPLOSION_SLOTS : Nat := 20

def EXPLOSION_GROUPS : Nat := 5

def EXPLOSIONS_PER_GROUP : Nat := 4

def ABM_SPEED_SIDE : Int := 3

def ABM_SPEED_CENTER : Int := 7

def NUM_SILOS : Nat := 3

def SILO_CAPACITY : Int := 10

def SILO_POSITIONS : List (Int × Int) := [(32, 220), (128, 220), (224, 220)]

def NUM_CITIES_DEFAULT : Nat := 6

def MAX_CITIES_DESTROYED_PER_WAVE : Nat := 3

def CITY_POSITIONS : List (Int × Int) :=
  [(48, 216), (72, 216), (96, 216), (160, 216), (184, 216), (208, 216)]

def BONUS_CITY_POINTS : Int := 10000

def EXPLOSION_MAX_RADIUS : Int := 13

def EXPLOSION_OCTAGON_SLOPE_NUM : Int := 3

def EXPLOSION_OCTAGON_SLOPE_DEN : Int := 8

def EXPLOSION_COLLISION_ALTITUDE_MIN : Int := 33

def MIRV_ALTITUDE_LOW : Int := 128

def MIRV_ALTITUDE_HIGH : Int := 159

def MIRV_MAX_CHILDREN : Int := 3

def POINTS_PER_ICBM : Int := 25

def POINTS_PER_SMART_BOMB : Int := 125

def POINTS_PER_FLIER : Int := 100

def POINTS_PER_REMAINING_ABM : Int := 5

def POINTS_PER_SURVIVING_CITY : Int := 100

def WAVE_SPEEDS : List Int :=
  [1, 1, 2, 2, 3, 3, 4, 4, 5, 5, 6, 6, 7, 7, 8, 8, 8, 8, 8, 8]

-- ── src/models/missile.py : fixed-point 8.8 math utilities ─────────────────

/-- `to_fixed`: `value << 8`, i.e. multiplication by 256. -/
def to_fixed (value : Int) : Int := value * FIXED_POINT_SCALE

/-- `from_fixed`: `value >> 8`, Python arithmetic shift = floor division. -/
def from_fixed (value : Int) : Int := Int.fdiv value FIXED_POINT_SCALE

/-- `fixed_mul`: `(a * b) >> 8`. -/
def fixed_mul (a b : Int) : Int := Int.fdiv (a * b) FIXED_POINT_SCALE

/-- `distance_approx`: octagonal distance approximation capped at 255.
`dx, dy := |x2-x1|, |y2-y1|`, swapped so that `dx ≥ dy`, result
`min (dx + ((3*dy) >> 3)) 255`. -/
def distance_approx (x1 y1 x2 y2 : Int) : Int :=
  let dx := |x2 - x1|
  let dy := |y2 - y1|
  if dx < dy then min (dy + Int.fdiv (3 * dx) 8) 255
  else min (dx + Int.fdiv (3 * dy) 8) 255

/-- `compute_increments`: per-axis 8.8 fixed-point increments toward target. -/
def compute_increments (sx sy tx ty speed : Int) : Int × Int :=
  let dist := distance_approx sx sy tx ty
  if dist = 0 then (0, 0)
  else
    let dx := tx - sx
    let dy := ty - sy
    (Int.fdiv (dx * speed * FIXED_POINT_SCALE) dist,
     Int.fdiv (dy * speed * FIXED_POINT_SCALE) dist)

/-- `has_passed_target`: per-axis overshoot test. -/
def has_passed_target (cx cy tx ty x_inc y_inc : Int) : Bool :=
  decide ((x_inc > 0 ∧ cx ≥ tx) ∨ (x_inc < 0 ∧ cx ≤ tx) ∨
          (y_inc > 0 ∧ cy ≥ ty) ∨ (y_inc < 0 ∧ cy ≤ ty))

-- ── src/models/missile.py : ABM ────────────────────────────────────────────

structure ABM where
  silo_index : Int
  start_x : Int
  start_y : Int
  target_x : Int
  target_y : Int
  current_x_fp : Int
  current_y_fp : Int
  x_increment : Int
  y_increment : Int
  is_active : Bool
deriving DecidableEq, Repr

/-- `ABM.__post_init__`: construct an ABM, computing speed from the silo
index and the fixed-point position and increments. -/
def mkABM (silo_index start_x start_y target_x target_y : Int) : ABM :=
  let speed := if silo_index = 1 then ABM_SPEED_CENTER else ABM_SPEED_SIDE
  let inc := compute_increments start_x start_y target_x target_y speed
  { silo_index, start_x, start_y, target_x, target_y,
    current_x_fp := to_fixed start_x, current_y_fp := to_fixed start_y,
    x_increment := inc.1, y_increment := inc.2, is_active := true }

def ABM.current_x (a : ABM) : Int := from_fixed a.current_x_fp

def ABM.current_y (a : ABM) : Int := from_fixed a.current_y_fp

/-- `ABM.update`: advance one frame; deactivate on arrival. -/
def ABM.update (a : ABM) : ABM :=
  if !a.is_active then a
  else
    let a2 := { a with current_x_fp := a.current_x_fp + a.x_increment,
                       current_y_fp := a.current_y_fp + a.y_increment }
    if has_passed_target a2.current_x a2.current_y a2.target_x a2.target_y
        a2.x_increment a2.y_increment then
      { a2 with is_active := false }
    else a2

def ABM.deactivate (a : ABM) : ABM := { a with is_active := false }

-- ── src/models/missile.py : ICBM ───────────────────────────────────────────

structure ICBM where
  entry_x : Int
  entry_y : Int
  target_x : Int
  target_y : Int
  speed : Int
  current_x_fp : Int
  current_y_fp : Int
  x_increment : Int
  y_increment : Int
  can_mirv : Bool
  has_mirved : Bool
  is_active : Bool
deriving DecidableEq, Repr

/-- `ICBM.__post_init__`: construct an ICBM at its entry point. -/
def mkICBM (entry_x entry_y target_x target_y speed : Int) (can_mirv : Bool) :
    ICBM :=
  let inc := compute_increments entry_x entry_y target_x target_y speed
  { entry_x, entry_y, target_x, target_y, speed,
    current_x_fp := to_fixed entry_x, current_y_fp := to_fixed entry_y,
    x_increment := inc.1, y_increment := inc.2,
    can_mirv, has_mirved := false, is_active := true }

def ICBM.current_x (m : ICBM) : Int := from_fixed m.current_x_fp

def ICBM.current_y (m : ICBM) : Int := from_fixed m.current_y_fp

/-- `ICBM.altitude` is the Y screen coordinate (top = 0). -/
def ICBM.altitude (m : ICBM) : Int := m.current_y

/-- `ICBM.update`: advance one frame; deactivate on arrival. -/
def ICBM.update (m : ICBM) : ICBM :=
  if !m.is_active then m
  else
    let m2 := { m with current_x_fp := m.current_x_fp + m.x_increment,
                       current_y_fp := m.current_y_fp + m.y_increment }
    if has_passed_target m2.current_x m2.current_y m2.target_x m2.target_y
        m2.x_increment m2.y_increment then
      { m2 with is_active := false }
    else m2

def ICBM.deactivate (m : ICBM) : ICBM := { m with is_active := false }

/-- `ICBM.check_mirv_conditions`: all MIRV preconditions. -/
def ICBM.check_mirv_conditions (icbm : ICBM) (active_icbm_count : Int)
    (remaining_wave_icbms : Int) (any_above_high : Bool) : Bool :=
  if icbm.has_mirved || !icbm.can_mirv then false
  else if !(decide (MIRV_ALTITUDE_LOW ≤ icbm.altitude ∧
                    icbm.altitude ≤ MIRV_ALTITUDE_HIGH)) then false
  else if any_above_high then false
  else if active_icbm_count ≥ (MAX_ICBM_SLOTS : Int) then false
  else if remaining_wave_icbms ≤ 0 then false
  else true

/-- `ICBM.mirv`: split into up to `MIRV_MAX_CHILDREN` children; returns the
children (Python: for `i in range(num)` over the first `num` targets) and the
parent with `has_mirved := true`. -/
def ICBM.mirv (m : ICBM) (targets : List (Int × Int))
    (active_icbm_count remaining_wave_icbms : Int) : List ICBM × ICBM :=
  let num : Int :=
    min (min MIRV_MAX_CHILDREN ((MAX_ICBM_SLOTS : Int) - active_icbm_count))
        (min remaining_wave_icbms (targets.length : Int))
  let children := (targets.take num.toNat).map
    (fun t => mkICBM m.current_x m.current_y t.1 t.2 m.speed false)
  (children, { m with has_mirved := true })

-- ── src/models/missile.py : SmartBomb ──────────────────────────────────────

structure SmartBomb extends ICBM where
  evasion_active : Bool
  nearby_explosions : List (Int × Int)
deriving DecidableEq, Repr

/-- `SmartBomb.detect_explosions`: record nearby explosion centres. -/
def SmartBomb.detect_explosions (s : SmartBomb)
    (explosion_centers : List (Int × Int)) : SmartBomb :=
  { s with nearby_explosions := explosion_centers,
           evasion_active := explosion_centers.length > 0 }

/-- `SmartBomb._evade`: move toward target without approaching the nearest
explosion; each axis step is zeroed when it would move closer to the nearest
explosion centre. -/
def SmartBomb.evade (s : SmartBomb) : SmartBomb :=
  let m := s.toICBM
  match s.nearby_explosions with
  | [] => s
  | c0 :: rest =>
    let closest := (rest.foldl
      (fun (best : (Int × Int) × Int) ec =>
        let d := distance_approx m.current_x m.current_y ec.1 ec.2
        if d < best.2 then (ec, d) else best)
      (c0, distance_approx m.current_x m.current_y c0.1 c0.2)).1
    let dx_expl := closest.1 - m.current_x
    let dy_expl := closest.2 - m.current_y
    let step_x := if dx_expl ≠ 0 ∧ (decide (m.x_increment > 0) = decide (dx_expl > 0))
      then 0 else m.x_increment
    let step_y := if dy_expl ≠ 0 ∧ (decide (m.y_increment > 0) = decide (dy_expl > 0))
      then 0 else m.y_increment
    let m2 := { m with current_x_fp := m.current_x_fp + step_x,
                       current_y_fp := m.current_y_fp + step_y }
    let m3 := if has_passed_target m2.current_x m2.current_y m2.target_x
        m2.target_y m2.x_increment m2.y_increment then
        { m2 with is_active := false }
      else m2
    { s with toICBM := m3 }

/-- `SmartBomb.update`: evade when evasion is active, else ballistic update. -/
def SmartBomb.update (s : SmartBomb) : SmartBomb :=
  if !s.toICBM.is_active then s
  else if s.evasion_active && !s.nearby_explosions.isEmpty then s.evade
  else { s with toICBM := s.toICBM.update }

-- ── src/models/missile.py : Flier ──────────────────────────────────────────

inductive FlierType where
  | BOMBER
  | SATELLITE
deriving DecidableEq, Repr

structure Flier where
  flier_type : FlierType
  altitude : Int
  direction : Int
  speed : Int
  resurrection_timer : Int
  firing_timer : Int
  current_x : Int
  can_fire : Bool
  is_active : Bool
deriving DecidableEq, Repr

/-- `Flier.update`: move one frame horizontally. -/
def Flier.update (f : Flier) : Flier :=
  if !f.is_active then f
  else { f with current_x := f.current_x + f.speed * f.direction }

/-- `Flier.fire`: one ICBM per target from the flier's position. -/
def Flier.fire (f : Flier) (targets : List (Int × Int)) (speed : Int) :
    List ICBM :=
  if !f.can_fire || !f.is_active then []
  else targets.map (fun t => mkICBM f.current_x f.altitude t.1 t.2 speed false)

def Flier.deactivate (f : Flier) : Flier := { f with is_active := false }

-- ── ICBM-table entries: an `icbm_slots` cell holds an ICBM or a SmartBomb ──

/-- An occupant of the ICBM table: the Python list holds `ICBM` instances and
`SmartBomb` subclass instances; `isinstance(s, SmartBomb)` becomes a match on
the constructor. -/
inductive IcbmEnt where
  | icbm (m : ICBM)
  | smart (s : SmartBomb)
deriving DecidableEq, Repr

def IcbmEnt.is_active : IcbmEnt → Bool
  | .icbm m => m.is_active
  | .smart s => s.toICBM.is_active

def IcbmEnt.current_x : IcbmEnt → Int
  | .icbm m => m.current_x
  | .smart s => s.toICBM.current_x

def IcbmEnt.current_y : IcbmEnt → Int
  | .icbm m => m.current_y
  | .smart s => s.toICBM.current_y

def IcbmEnt.is_smart : IcbmEnt → Bool
  | .icbm _ => false
  | .smart _ => true

/-- Dynamic dispatch of `update` over the ICBM class hierarchy. -/
def IcbmEnt.update : IcbmEnt → IcbmEnt
  | .icbm m => .icbm m.update
  | .smart s => .smart s.update

def IcbmEnt.deactivate : IcbmEnt → IcbmEnt
  | .icbm m => .icbm m.deactivate
  | .smart s => .smart { s with toICBM := s.toICBM.deactivate }

-- ── src/models/missile.py : MissileSlotManager ─────────────────────────────

structure MissileSlotManager where
  abm_slots : List (Option ABM)
  icbm_slots : List (Option IcbmEnt)
  flier_slot : Option Flier
deriving DecidableEq, Repr

/-- Default construction: `[None] * 8`, `[None] * 8`, no flier. -/
def mkMissileSlotManager : MissileSlotManager :=
  { abm_slots := List.replicate MAX_ABM_SLOTS none,
    icbm_slots := List.replicate MAX_ICBM_SLOTS none,
    flier_slot := none }

/-- A slot is free when it is `None` or its occupant is inactive. -/
def abmSlotFree : Option ABM → Bool
  | none => true
  | some a => !a.is_active

def icbmSlotFree : Option IcbmEnt → Bool
  | none => true
  | some e => !e.is_active

/-- The `for i, slot in enumerate(...)` loop of `add_abm`: place into the
first free slot, `none` when the table is full. -/
def addAbmLoop (slots : List (Option ABM)) (a : ABM) :
    Option (List (Option ABM)) :=
  match slots with
  | [] => none
  | s :: rest =>
    if abmSlotFree s then some (some a :: rest)
    else
      match addAbmLoop rest a with
      | some rest2 => some (s :: rest2)
      | none => none

def MissileSlotManager.active_abm_count (mgr : MissileSlotManager) : Nat :=
  (mgr.abm_slots.filter (fun s => !abmSlotFree s)).length

/-- `MissileSlotManager.add_abm`: returns the Python boolean and the updated
manager. -/
def MissileSlotManager.add_abm (mgr : MissileSlotManager) (a : ABM) :
    Bool × MissileSlotManager :=
  match addAbmLoop mgr.abm_slots a with
  | some slots2 => (true, { mgr with abm_slots := slots2 })
  | none => (false, mgr)

def MissileSlotManager.active_icbm_count (mgr : MissileSlotManager) : Nat :=
  (mgr.icbm_slots.filter (fun s => !icbmSlotFree s)).length

def MissileSlotManager.smart_bomb_count (mgr : MissileSlotManager) : Nat :=
  (mgr.icbm_slots.filter
    (fun s => match s with
      | some e => e.is_smart && e.is_active
      | none => false)).length

/-- First-free-slot loop of `add_icbm`. -/
def addIcbmLoop (slots : List (Option IcbmEnt)) (e : IcbmEnt) :
    Option (List (Option IcbmEnt)) :=
  match slots with
  | [] => none
  | s :: rest =>
    if icbmSlotFree s then some (some e :: rest)
    else
      match addIcbmLoop rest e with
      | some rest2 => some (s :: rest2)
      | none => none

/-- `MissileSlotManager.add_icbm`: smart-bomb sub-limit, then first free
slot. -/
def MissileSlotManager.add_icbm (mgr : MissileSlotManager) (e : IcbmEnt) :
    Bool × MissileSlotManager :=
  if e.is_smart && decide (mgr.smart_bomb_count ≥ MAX_SMART_BOMBS) then
    (false, mgr)
  else
    match addIcbmLoop mgr.icbm_slots e with
    | some slots2 => (true, { mgr with icbm_slots := slots2 })
    | none => (false, mgr)

def MissileSlotManager.set_flier (mgr : MissileSlotManager) (f : Flier) :
    Bool × MissileSlotManager :=
  match mgr.flier_slot with
  | some g => if g.is_active then (false, mgr) else (true, { mgr with flier_slot := some f })
  | none => (true, { mgr with flier_slot := some f })

/-- `MissileSlotManager.update_all`: advance every active occupant once. -/
def MissileSlotManager.update_all (mgr : MissileSlotManager) :
    MissileSlotManager :=
  { mgr with
    abm_slots := mgr.abm_slots.map (fun s =>
      match s with
      | some a => if a.is_active then some a.update else some a
      | none => none),
    icbm_slots := mgr.icbm_slots.map (fun s =>
      match s with
      | some e => if e.is_active then some e.update else some e
      | none => none),
    flier_slot := match mgr.flier_slot with
      | some f => if f.is_active then some f.update else some f
      | none => none }

/-- `MissileSlotManager.clear_inactive`: nil out slots whose occupants have
deactivated. -/
def MissileSlotManager.clear_inactive (mgr : MissileSlotManager) :
    MissileSlotManager :=
  { mgr with
    abm_slots := mgr.abm_slots.map (fun s =>
      match s with
      | some a => if !a.is_active then none else some a
      | none => none),
    icbm_slots := mgr.icbm_slots.map (fun s =>
      match s with
      | some e => if !e.is_active then none else some e
      | none => none),
    flier_slot := match mgr.flier_slot with
      | some f => if !f.is_active then none else some f
      | none => none }

def MissileSlotManager.reset (_mgr : MissileSlotManager) :
    MissileSlotManager := mkMissileSlotManager

-- ── src/models/explosion.py ────────────────────────────────────────────────

inductive ExplosionState where
  | EXPANDING
  | HOLDING
  | CONTRACTING
  | DONE
deriving DecidableEq, Repr

/-- `octagon_points`: the 8 vertices of the chamfered octagon. -/
def octagon_points (cx cy radius slope_num slope_den : Int) :
    List (Int × Int) :=
  let cut := Int.fdiv (radius * slope_num) slope_den
  [(cx, cy - radius),
   (cx + radius - cut, cy - cut),
   (cx + radius, cy),
   (cx + radius - cut, cy + cut),
   (cx, cy + radius),
   (cx - radius + cut, cy + cut),
   (cx - radius, cy),
   (cx - radius + cut, cy - cut)]

/-- `point_in_octagon`: axis-aligned octagon membership with the 3/8-slope
chamfer cut. -/
def point_in_octagon (px py cx cy radius slope_num slope_den : Int) : Bool :=
  let dx := |px - cx|
  let dy := |py - cy|
  if dx > radius || dy > radius then false
  else
    let cut := Int.fdiv (radius * slope_num) slope_den
    if dx + dy > radius + cut then false
    else true

structure Explosion where
  center_x : Int
  center_y : Int
  max_radius : Int
  expand_rate : Int
  hold_frames : Int
  contract_rate : Int
  group_id : Nat
  current_radius : Int
  state : ExplosionState
  frame_counter : Int
  is_active : Bool
deriving DecidableEq, Repr

/-- `Explosion.update`: one lifecycle step (EXPANDING → HOLDING →
CONTRACTING → DONE). -/
def Explosion.update (e : Explosion) : Explosion :=
  if !e.is_active then e
  else
    match e.state with
    | .EXPANDING =>
      let r := e.current_radius + e.expand_rate
      if r ≥ e.max_radius then
        { e with current_radius := e.max_radius, state := .HOLDING,
                 frame_counter := 0 }
      else { e with current_radius := r }
    | .HOLDING =>
      let fc := e.frame_counter + 1
      if fc ≥ e.hold_frames then
        { e with frame_counter := fc, state := .CONTRACTING }
      else { e with frame_counter := fc }
    | .CONTRACTING =>
      let r := e.current_radius - e.contract_rate
      if r ≤ 0 then
        { e with current_radius := 0, state := .DONE, is_active := false }
      else { e with current_radius := r }
    | .DONE => e

/-- `Explosion.collides_with`: octagon hit test, gated on activity, a
positive radius and the minimum collision altitude. -/
def Explosion.collides_with (e : Explosion) (x y : Int) : Bool :=
  if !e.is_active || e.current_radius ≤ 0 then false
  else if y < EXPLOSION_COLLISION_ALTITUDE_MIN then false
  else point_in_octagon x y e.center_x e.center_y e.current_radius
    EXPLOSION_OCTAGON_SLOPE_NUM EXPLOSION_OCTAGON_SLOPE_DEN

structure ExplosionManager where
  slots : List (Option Explosion)
  current_group : Nat
deriving DecidableEq, Repr

def mkExplosionManager : ExplosionManager :=
  { slots := List.replicate MAX_EXPLOSION_SLOTS none, current_group := 0 }

/-- The first-free-slot loop of `ExplosionManager.add`; the explosion placed
at index `i` gets group id `i / EXPLOSIONS_PER_GROUP`. -/
def addExplosionLoop (slots : List (Option Explosion)) (e : Explosion)
    (i : Nat) : Option (List (Option Explosion)) :=
  match slots with
  | [] => none
  | s :: rest =>
    match s with
    | none => some (some { e with group_id := i / EXPLOSIONS_PER_GROUP } :: rest)
    | some ex =>
      if !ex.is_active then
        some (some { e with group_id := i / EXPLOSIONS_PER_GROUP } :: rest)
      else
        match addExplosionLoop rest e (i + 1) with
        | some rest2 => some (s :: rest2)
        | none => none

def ExplosionManager.add (em : ExplosionManager) (e : Explosion) :
    Bool × ExplosionManager :=
  match addExplosionLoop em.slots e 0 with
  | some slots2 => (true, { em with slots := slots2 })
  | none => (false, em)

/-- One iteration of the `ExplosionManager.update` loop at slot `i`:
active occupants are stepped and appended to the `updated` list; occupants
that are (now) inactive are cleared. -/
def explosionSlotStep (acc : List (Option Explosion) × List Explosion)
    (i : Nat) : List (Option Explosion) × List Explosion :=
  let slots := acc.1
  let upd := acc.2
  match slots.getD i none with
  | some ex =>
    if ex.is_active then
      let e2 := ex.update
      if !e2.is_active then (slots.set i none, upd ++ [e2])
      else (slots.set i (some e2), upd ++ [e2])
    else (slots.set i none, upd)
  | none => (slots, upd)

/-- `ExplosionManager.update`: step the current group only, collect the
active explosions that were updated, advance the group counter. -/
def ExplosionManager.update (em : ExplosionManager) :
    List Explosion × ExplosionManager :=
  let start := em.current_group * EXPLOSIONS_PER_GROUP
  let idxs := (List.range EXPLOSIONS_PER_GROUP).map (fun k => start + k)
  let r := idxs.foldl explosionSlotStep (em.slots, [])
  (r.2, { em with slots := r.1,
                  current_group := (em.current_group + 1) % EXPLOSION_GROUPS })

/-- `ExplosionManager.check_icbm_collisions`: nested loop over explosions and
`(x, y, slot_index)` tuples. -/
def check_icbm_collisions (explosions : List Explosion)
    (icbm_positions : List (Int × Int × Nat)) : List Nat :=
  explosions.foldl
    (fun hit ex => hit ++ icbm_positions.filterMap
      (fun p => if ex.collides_with p.1 p.2.1 then some p.2.2 else none))
    []

def ExplosionManager.active_count (em : ExplosionManager) : Nat :=
  (em.slots.filter (fun s =>
    match s with
    | some e => e.is_active
    | none => false)).length

def ExplosionManager.active_explosion_centers (em : ExplosionManager) :
    List (Int × Int) :=
  em.slots.filterMap (fun s =>
    match s with
    | some e => if e.is_active then some (e.center_x, e.center_y) else none
    | none => none)

def ExplosionManager.reset (_em : ExplosionManager) : ExplosionManager :=
  mkExplosionManager

-- ── src/models/city.py ─────────────────────────────────────────────────────

structure City where
  position_x : Int
  position_y : Int
  is_destroyed : Bool
  is_active : Bool
deriving DecidableEq, Repr

def mkCity (position_x position_y : Int) : City :=
  { position_x, position_y, is_destroyed := false, is_active := true }

def City.destroy (c : City) : City :=
  { c with is_destroyed := true, is_active := false }

def City.restore (c : City) : City :=
  { c with is_destroyed := false, is_active := true }

structure CityManager where
  cities : List City
  bonus_cities : Int
  bonus_threshold : Int
  cities_destroyed_this_wave : Nat
  last_bonus_score : Int
deriving DecidableEq, Repr

/-- `CityManager.__post_init__` / `_init_cities`: the default six cities. -/
def mkCityManager : CityManager :=
  { cities := (CITY_POSITIONS.take NUM_CITIES_DEFAULT).map
      (fun p => mkCity p.1 p.2),
    bonus_cities := 0, bonus_threshold := BONUS_CITY_POINTS,
    cities_destroyed_this_wave := 0, last_bonus_score := 0 }

/-- `CityManager.start_wave`: restore cities, reset the per-wave counter. -/
def CityManager.start_wave (cm : CityManager) : CityManager :=
  { cm with cities_destroyed_this_wave := 0,
            cities := cm.cities.map City.restore }

/-- `CityManager.destroy_city`: destroy city `index` unless the index is out
of range, the city is already destroyed, or the per-wave cap is reached. -/
def CityManager.destroy_city (cm : CityManager) (index : Int) :
    Bool × CityManager :=
  if index < 0 ∨ index ≥ (cm.cities.length : Int) then (false, cm)
  else
    let city := cm.cities.getD index.toNat (mkCity 0 0)
    if city.is_destroyed then (false, cm)
    else if cm.cities_destroyed_this_wave ≥ MAX_CITIES_DESTROYED_PER_WAVE then
      (false, cm)
    else
      (true, { cm with
        cities := cm.cities.set index.toNat city.destroy,
        cities_destroyed_this_wave := cm.cities_destroyed_this_wave + 1 })

/-- The enumerate-loop of `destroy_city_at`: index of the first
non-destroyed city within `radius` (Chebyshev box) of `(x, y)`. -/
def firstCityInRange (cities : List City) (x y radius : Int) : Option Nat :=
  (cities.enum.find? (fun p =>
    !p.2.is_destroyed &&
      decide (|p.2.position_x - x| ≤ radius ∧ |p.2.position_y - y| ≤ radius))
  ).map (fun p => p.1)

/-- `CityManager.destroy_city_at`: destroy the first active city within
`radius` of `(x, y)`, subject to `destroy_city`'s checks. -/
def CityManager.destroy_city_at (cm : CityManager) (x y radius : Int) :
    Bool × CityManager :=
  match firstCityInRange cm.cities x y radius with
  | some i => cm.destroy_city (i : Int)
  | none => (false, cm)

/-- The `while` loop of `check_bonus`; `fuel` is an upper bound on the
number of iterations (each iteration raises `last` by `threshold ≥ 1`, so
`(score - last).toNat` always suffices). -/
def checkBonusLoop (threshold : Int) :
    Nat → Int → Int → Int → Nat → Int × Int × Nat
  | 0, _, last, bonus, awarded => (last, bonus, awarded)
  | fuel + 1, score, last, bonus, awarded =>
    if score - last ≥ threshold then
      checkBonusLoop threshold fuel score (last + threshold)
        ((bonus + 1) % 256) (awarded + 1)
    else (last, bonus, awarded)

/-- `CityManager.check_bonus`: award one banked bonus city per threshold
crossed; the counter wraps at 256 (`& 0xFF`). -/
def CityManager.check_bonus (cm : CityManager) (current_score : Int) :
    Nat × CityManager :=
  if cm.bonus_threshold ≤ 0 then (0, cm)
  else
    let r := checkBonusLoop cm.bonus_threshold
      (current_score - cm.last_bonus_score).toNat current_score
      cm.last_bonus_score cm.bonus_cities 0
    (r.2.2, { cm with last_bonus_score := r.1, bonus_cities := r.2.1 })

def CityManager.active_count (cm : CityManager) : Nat :=
  (cm.cities.filter (fun c => !c.is_destroyed)).length

def CityManager.total_cities (cm : CityManager) : Int :=
  (cm.active_count : Int) + cm.bonus_cities

def CityManager.all_destroyed (cm : CityManager) : Bool :=
  decide (cm.active_count = 0) && decide (cm.bonus_cities = 0)

-- ── src/models/defense.py ──────────────────────────────────────────────────

structure DefenseSilo where
  silo_index : Int
  position_x : Int
  position_y : Int
  abm_count : Int
  is_destroyed : Bool
deriving DecidableEq, Repr

def mkDefenseSilo (silo_index position_x position_y : Int) : DefenseSilo :=
  { silo_index, position_x, position_y, abm_count := SILO_CAPACITY,
    is_destroyed := false }

def DefenseSilo.can_fire (s : DefenseSilo) : Bool :=
  !s.is_destroyed && decide (s.abm_count > 0)

/-- `DefenseSilo.fire`: decrement ammo and yield an ABM, or `none`. -/
def DefenseSilo.fire (s : DefenseSilo) (target_x target_y : Int) :
    Option ABM × DefenseSilo :=
  if !s.can_fire then (none, s)
  else
    (some (mkABM s.silo_index s.position_x s.position_y target_x target_y),
     { s with abm_count := s.abm_count - 1 })

def DefenseSilo.restore (s : DefenseSilo) : DefenseSilo :=
  { s with abm_count := SILO_CAPACITY, is_destroyed := false }

structure DefenseManager where
  silos : List DefenseSilo
deriving DecidableEq, Repr

/-- `DefenseManager.__post_init__` / `_init_silos`. -/
def mkDefenseManager : DefenseManager :=
  { silos := (SILO_POSITIONS.enum.take NUM_SILOS).map
      (fun p => mkDefenseSilo (p.1 : Int) p.2.1 p.2.2) }

/-- `DefenseManager.fire`: global 8-ABM cap, index check, then the silo's
own `fire`. -/
def DefenseManager.fire (dm : DefenseManager) (silo_index : Int)
    (target_x target_y : Int) (current_active_abms : Nat) :
    Option ABM × DefenseManager :=
  if (current_active_abms : Int) ≥ (MAX_ABM_SLOTS : Int) then (none, dm)
  else if silo_index < 0 ∨ silo_index ≥ (dm.silos.length : Int) then
    (none, dm)
  else
    let s := dm.silos.getD silo_index.toNat (mkDefenseSilo 0 0 0)
    let r := s.fire target_x target_y
    (r.1, { dm with silos := dm.silos.set silo_index.toNat r.2 })

def DefenseManager.restore_all (dm : DefenseManager) : DefenseManager :=
  { dm with silos := dm.silos.map DefenseSilo.restore }

def DefenseManager.total_abm_count (dm : DefenseManager) : Int :=
  (dm.silos.map DefenseSilo.abm_count).sum

-- ── src/ui/text.py : ScoreDisplay (score state consumed by the core) ───────

structure ScoreDisplay where
  player_score : Int
  high_score : Int
deriving DecidableEq, Repr

def ScoreDisplay.add (sc : ScoreDisplay) (points : Int) : ScoreDisplay :=
  let p := sc.player_score + points
  { player_score := p, high_score := max sc.high_score p }

-- ── src/utils/functions.py ─────────────────────────────────────────────────

/-- `get_wave_speed`: clamped lookup in `WAVE_SPEEDS` (wave is 1-indexed). -/
def get_wave_speed (wave_number : Int) : Int :=
  let idx := min (wave_number - 1) ((WAVE_SPEEDS.length : Int) - 1)
  WAVE_SPEEDS.getD (max idx 0).toNat 0

/-- `calculate_wave_bonus`: `100 * cities + 5 * ABMs`. -/
def calculate_wave_bonus (surviving_cities remaining_abms : Int) : Int :=
  surviving_cities * POINTS_PER_SURVIVING_CITY +
    remaining_abms * POINTS_PER_REMAINING_ABM

-- ── src/game.py ────────────────────────────────────────────────────────────

inductive GameState where
  | ATTRACT
  | RUNNING
  | WAVE_END
  | GAME_OVER
deriving DecidableEq, Repr

structure Game where
  wave_number : Int
  state : GameState
  missiles : MissileSlotManager
  explosions : ExplosionManager
  cities : CityManager
  defences : DefenseManager
  score_display : ScoreDisplay
  icbms_remaining_this_wave : Int
  frame_count : Int
deriving DecidableEq, Repr

def mkGame : Game :=
  { wave_number := 1, state := .ATTRACT, missiles := mkMissileSlotManager,
    explosions := mkExplosionManager, cities := mkCityManager,
    defences := mkDefenseManager,
    score_display := { player_score := 0, high_score := 0 },
    icbms_remaining_this_wave := 0, frame_count := 0 }

/-- `Game._icbms_for_wave`: `min(8 + wave * 2, 30)`. -/
def Game.icbms_for_wave (g : Game) : Int := min (8 + g.wave_number * 2) 30

/-- `Game.start_wave`. -/
def Game.start_wave (g : Game) : Game :=
  { g with state := .RUNNING, defences := g.defences.restore_all,
           cities := g.cities.start_wave, missiles := g.missiles.reset,
           explosions := g.explosions.reset,
           icbms_remaining_this_wave := g.icbms_for_wave, frame_count := 0 }

/-- `Game.end_wave`: add the wave bonus, re-check bonus cities, advance the
wave number and transition to WAVE_END. -/
def Game.end_wave (g : Game) : Game :=
  let bonus := calculate_wave_bonus (g.cities.active_count : Int)
    g.defences.total_abm_count
  let sc := g.score_display.add bonus
  let cm := (g.cities.check_bonus sc.player_score).2
  { g with score_display := sc, cities := cm,
           wave_number := g.wave_number + 1, state := .WAVE_END }

/-- Step 3 of `Game.update`: the `(x, y, slot_index)` list of active
ICBM-class occupants. -/
def icbmPositions (mgr : MissileSlotManager) : List (Int × Int × Nat) :=
  mgr.icbm_slots.enum.filterMap (fun p =>
    match p.2 with
    | some e => if e.is_active then some (e.current_x, e.current_y, p.1)
                else none
    | none => none)

/-- Step 3 of `Game.update`: deactivate each hit slot (guarded on it still
being active) and award 125 points for a smart bomb, 25 otherwise. -/
def applyIcbmHits (mgr : MissileSlotManager) (sc : ScoreDisplay)
    (hits : List Nat) : MissileSlotManager × ScoreDisplay :=
  hits.foldl
    (fun acc idx =>
      match acc.1.icbm_slots.getD idx none with
      | some e =>
        if e.is_active then
          let pts := if e.is_smart then POINTS_PER_SMART_BOMB
                     else POINTS_PER_ICBM
          let slots2 := acc.1.icbm_slots.set idx (some e.deactivate)
          ({ acc.1 with icbm_slots := slots2 }, acc.2.add pts)
        else acc
      | none => acc)
    (mgr, sc)

/-- Step 4 of `Game.update`: first explosion of the updated group that hits
the flier awards 100 points and deactivates it (the Python loop breaks at
the first hit). -/
def applyFlierCollision (mgr : MissileSlotManager) (sc : ScoreDisplay)
    (updated : List Explosion) : MissileSlotManager × ScoreDisplay :=
  match mgr.flier_slot with
  | some f =>
    if f.is_active &&
        updated.any (fun ex => ex.collides_with f.current_x f.altitude) then
      ({ mgr with flier_slot := some f.deactivate }, sc.add POINTS_PER_FLIER)
    else (mgr, sc)
  | none => (mgr, sc)

/-- Steps 1-4 of `Game.update` while RUNNING: advance and purge missiles,
advance one explosion group, apply explosion hits to ICBM-class entities and
to the flier. -/
def Game.tickPhase1to4 (g : Game) : Game :=
  let m1 := g.missiles.update_all.clear_inactive
  let r := g.explosions.update
  let hits := check_icbm_collisions r.1 (icbmPositions m1)
  let a := applyIcbmHits m1 g.score_display hits
  let b := applyFlierCollision a.1 a.2 r.1
  { g with frame_count := g.frame_count + 1, missiles := b.1,
           explosions := r.2, score_display := b.2 }

/-- Step 5 of `Game.update`: the impact positions the city-destruction scan
visits — every ICBM-table slot that is occupied but inactive. -/
def Game.step5Positions (g : Game) : List (Int × Int) :=
  g.missiles.icbm_slots.filterMap (fun s =>
    match s with
    | some e => if !e.is_active then some (e.current_x, e.current_y) else none
    | none => none)

/-- Step 5 of `Game.update`: attempt `destroy_city_at` (radius 10) at each
scanned position. -/
def Game.step5 (g : Game) : Game :=
  let cm2 := g.step5Positions.foldl
    (fun cm p => (cm.destroy_city_at p.1 p.2 10).2) g.cities
  { g with cities := cm2 }

/-- `Game.update`: the per-frame pipeline; returns the Python return value
(the game state) and the updated game. -/
def Game.update (g : Game) : GameState × Game :=
  if g.state ≠ GameState.RUNNING then (g.state, g)
  else
    let g5 := g.tickPhase1to4.step5
    let g6 := { g5 with
      cities := (g5.cities.check_bonus g5.score_display.player_score).2 }
    if g6.cities.all_destroyed then
      (GameState.GAME_OVER, { g6 with state := GameState.GAME_OVER })
    else if g6.icbms_remaining_this_wave ≤ 0 ∧
        g6.missiles.active_icbm_count = 0 ∧
        g6.explosions.active_count = 0 then
      let g7 := g6.end_wave
      (g7.state, g7)
    else (g6.state, g6)

/-- `Game.fire_from_silo`: delegate to the DefenseManager, then attempt Slot
Manager admission; an ammo decrement is never reversed. -/
def Game.fire_from_silo (g : Game) (silo_index target_x target_y : Int) :
    Bool × Game :=
  let r := g.defences.fire silo_index target_x target_y
    g.missiles.active_abm_count
  match r.1 with
  | none => (false, { g with defences := r.2 })
  | some abm =>
    let a := g.missiles.add_abm abm
    (a.1, { g with defences := r.2, missiles := a.2 })

/-- `Game.spawn_icbm`: budget check, wave-speed ICBM construction, admission,
budget decrement only on success. -/
def Game.spawn_icbm (g : Game) (entry_x entry_y target_x target_y : Int)
    (can_mirv : Bool) : Bool × Game :=
  if g.icbms_remaining_this_wave ≤ 0 then (false, g)
  else
    let speed := get_wave_speed g.wave_number
    let icbm := mkICBM entry_x entry_y target_x target_y speed can_mirv
    let a := g.missiles.add_icbm (.icbm icbm)
    if a.1 then
      (true, { g with missiles := a.2,
                      icbms_remaining_this_wave :=
                        g.icbms_remaining_this_wave - 1 })
    else (false, { g with missiles := a.2 })

-- ═══════════════════════════════ Theorems ═══════════════════════════════

/-- Claim C9: `distance_approx(x1,y1,x2,y2)` equals
`min (dx + ((3*dy) >> 3)) 255` where `dx, dy` are `|x2-x1|`, `|y2-y1|`
swapped so that `dx ≥ dy`; in particular
`distance_approx 0 0 100 100 = 137` and `distance_approx 0 0 500 500 = 255`. -/
theorem c9_distance_approx_spec (x1 y1 x2 y2 : Int) :
    distance_approx x1 y1 x2 y2
      = min (max |x2 - x1| |y2 - y1|
          + Int.fdiv (3 * min |x2 - x1| |y2 - y1|) 8) 255
    ∧ distance_approx 0 0 100 100 = 137
    ∧ distance_approx 0 0 500 500 = 255 := by
  refine ⟨?_, by decide, by decide⟩
  simp only [distance_approx]
  rcases lt_or_le |x2 - x1| |y2 - y1| with h | h
  · rw [if_pos h, max_eq_right h.le, min_eq_left h.le]
  · rw [if_neg (not_lt.mpr h), max_eq_left h, min_eq_right h]

/-- Claim C3: an ICBM with `has_mirved = true` never satisfies the MIRV
precondition check, for all values of the other parameters, and no operation
(`update`, `deactivate`, `mirv`, smart-bomb `update`/`detect_explosions`)
ever resets `has_mirved` to `false`. -/
theorem c3_has_mirved_is_permanent (m : ICBM) (active remaining : Int)
    (anyAbove : Bool) (targets : List (Int × Int)) (s : SmartBomb)
    (centers : List (Int × Int)) :
    ICBM.check_mirv_conditions { m with has_mirved := true }
        active remaining anyAbove = false
    ∧ m.update.has_mirved = m.has_mirved
    ∧ m.deactivate.has_mirved = m.has_mirved
    ∧ (m.mirv targets active remaining).2.has_mirved = true
    ∧ s.update.toICBM.has_mirved = s.toICBM.has_mirved
    ∧ (s.detect_explosions centers).toICBM.has_mirved
        = s.toICBM.has_mirved := by
  have hupd : ∀ n : ICBM, n.update.has_mirved = n.has_mirved := by
    intro n
    unfold ICBM.update
    split
    · rfl
    · dsimp only
      split <;> rfl
  refine ⟨rfl, hupd m, rfl, rfl, ?_, rfl⟩
  unfold SmartBomb.update
  split
  · rfl
  · split
    · unfold SmartBomb.evade
      split
      · rfl
      · dsimp only
        repeat' split
        all_goals rfl
    · exact hupd s.toICBM

/-- Claim C6: for every explosion and every query point with vertical
coordinate above the minimum-collision-altitude line (`y < 33`), the
collision test reports no hit. -/
theorem c6_no_collision_above_altitude_line (e : Explosion) (x y : Int)
    (h : y < EXPLOSION_COLLISION_ALTITUDE_MIN) :
    e.collides_with x y = false := by
  unfold Explosion.collides_with
  simp [h]

/-- A concrete explosion whose octagon geometrically contains the point
`(100, 20)`, which lies above the altitude-33 line. -/
def c6Explosion : Explosion :=
  { center_x := 100, center_y := 20, max_radius := 13, expand_rate := 1,
    hold_frames := 10, contract_rate := 1, group_id := 0,
    current_radius := 5, state := .HOLDING, frame_counter := 0,
    is_active := true }

/-- Witness for C6: the point `(100,20)` is geometrically inside the
octagon of an active explosion, yet no hit is reported because `20 < 33`. -/
theorem c6_no_collision_above_altitude_line_witness :
    ((20 : Int) < EXPLOSION_COLLISION_ALTITUDE_MIN
      ∧ point_in_octagon 100 20 c6Explosion.center_x c6Explosion.center_y
          c6Explosion.current_radius EXPLOSION_OCTAGON_SLOPE_NUM
          EXPLOSION_OCTAGON_SLOPE_DEN = true
      ∧ c6Explosion.is_active = true)
    ∧ c6Explosion.collides_with 100 20 = false :=
  ⟨⟨by decide, by decide, by decide⟩,
   c6_no_collision_above_altitude_line c6Explosion 100 20 (by decide)⟩

/-- Claim C10: `Explosion.update` keeps `current_radius` within
`[0, max_radius]` (and leaves `max_radius` unchanged) for arbitrary
non-negative expand and contract rates. -/
theorem c10_radius_stays_clamped (e : Explosion)
    (hm : 0 ≤ e.max_radius) (h0 : 0 ≤ e.current_radius)
    (h1 : e.current_radius ≤ e.max_radius)
    (he : 0 ≤ e.expand_rate) (hc : 0 ≤ e.contract_rate) :
    0 ≤ e.update.current_radius
    ∧ e.update.current_radius ≤ e.update.max_radius
    ∧ e.update.max_radius = e.max_radius := by
  unfold Explosion.update
  split
  · exact ⟨h0, h1, rfl⟩
  · cases e.state <;> dsimp only
    · split <;> dsimp only <;> refine ⟨by omega, by omega, rfl⟩
    · split <;> dsimp only <;> refine ⟨by omega, by omega, rfl⟩
    · split <;> dsimp only <;> refine ⟨by omega, by omega, rfl⟩
    · exact ⟨h0, h1, rfl⟩

/-- A concrete expanding explosion whose next expansion overshoots
`max_radius` and must be clamped. -/
def c10Explosion : Explosion :=
  { center_x := 100, center_y := 100, max_radius := 5, expand_rate := 3,
    hold_frames := 10, contract_rate := 1, group_id := 0,
    current_radius := 4, state := .EXPANDING, frame_counter := 0,
    is_active := true }

/-- Witness for C10: a concrete expanding explosion stays within bounds. -/
theorem c10_radius_stays_clamped_witness :
    ((0 : Int) ≤ c10Explosion.max_radius
      ∧ 0 ≤ c10Explosion.current_radius
      ∧ c10Explosion.current_radius ≤ c10Explosion.max_radius
      ∧ 0 ≤ c10Explosion.expand_rate
      ∧ 0 ≤ c10Explosion.contract_rate)
    ∧ (0 ≤ c10Explosion.update.current_radius
      ∧ c10Explosion.update.current_radius ≤ c10Explosion.update.max_radius
      ∧ c10Explosion.update.max_radius = c10Explosion.max_radius) :=
  ⟨⟨by decide, by decide, by decide, by decide, by decide⟩,
   c10_radius_stays_clamped c10Explosion (by decide) (by decide) (by decide)
     (by decide) (by decide)⟩

/-- Claim C2: `ICBM.mirv targets active remaining` (with a legal active
count and a non-negative wave budget) returns exactly
`min(3, 8 - active, remaining, targets.length)` children whose targets are
the first that-many entries of the supplied list (hence pairwise distinct
whenever the list is), each originating at the parent's current position
with `can_mirv = false` and the parent's speed, and the parent has
`has_mirved = true` afterwards. -/
theorem c2_mirv_spawns_min_children (m : ICBM) (targets : List (Int × Int))
    (active remaining : Int) (h1 : active ≤ 8) (h2 : 0 ≤ remaining) :
    ((m.mirv targets active remaining).1.length : Int)
      = min (min 3 (8 - active)) (min remaining (targets.length : Int))
    ∧ (m.mirv targets active remaining).1.map
        (fun c => (c.target_x, c.target_y))
      = targets.take (m.mirv targets active remaining).1.length
    ∧ (∀ c ∈ (m.mirv targets active remaining).1,
        c.entry_x = m.current_x ∧ c.entry_y = m.current_y ∧
        c.can_mirv = false ∧ c.speed = m.speed)
    ∧ (targets.Nodup →
        ((m.mirv targets active remaining).1.map
          (fun c => (c.target_x, c.target_y))).Nodup)
    ∧ (m.mirv targets active remaining).2.has_mirved = true := by
  have hnum : (0 : Int) ≤
      min (min MIRV_MAX_CHILDREN ((MAX_ICBM_SLOTS : Int) - active))
        (min remaining (targets.length : Int)) := by
    have hl : (0 : Int) ≤ (targets.length : Int) := Int.ofNat_nonneg _
    simp only [MIRV_MAX_CHILDREN, MAX_ICBM_SLOTS, le_min_iff]
    omega
  have hle : min (min MIRV_MAX_CHILDREN ((MAX_ICBM_SLOTS : Int) - active))
        (min remaining (targets.length : Int)) ≤ (targets.length : Int) :=
    le_trans (min_le_right _ _) (min_le_right _ _)
  have hlen : (m.mirv targets active remaining).1.length
      = (min (min MIRV_MAX_CHILDREN ((MAX_ICBM_SLOTS : Int) - active))
          (min remaining (targets.length : Int))).toNat := by
    simp only [ICBM.mirv, List.length_map, List.length_take]
    omega
  have htargets : (m.mirv targets active remaining).1.map
        (fun c => (c.target_x, c.target_y))
      = targets.take (m.mirv targets active remaining).1.length := by
    rw [hlen]
    simp only [ICBM.mirv, List.map_map]
    have : ((fun c : ICBM => (c.target_x, c.target_y)) ∘
        (fun t : Int × Int => mkICBM m.current_x m.current_y t.1 t.2 m.speed false))
        = fun t : Int × Int => (t.1, t.2) := by
      funext t
      rfl
    rw [this]
    exact List.map_congr_left (fun t _ => rfl) |>.trans (List.map_id _) |>.symm ▸ rfl
  refine ⟨?_, htargets, ?_, ?_, rfl⟩
  · rw [hlen]
    simp only [MIRV_MAX_CHILDREN, MAX_ICBM_SLOTS] at hnum ⊢
    omega
  · intro c hc
    simp only [ICBM.mirv, List.mem_map] at hc
    obtain ⟨t, _, rfl⟩ := hc
    exact ⟨rfl, rfl, rfl, rfl⟩
  · intro hnd
    rw [htargets]
    exact hnd.sublist (List.take_sublist _ _)

/-- The spec's MIRV test scenario: a carrier ICBM at altitude 140. -/
def c2Parent : ICBM := mkICBM 128 140 128 216 2 true

/-- Three distinct ground targets for the MIRV split. -/
def c2Targets : List (Int × Int) := [(60, 216), (128, 216), (200, 216)]

/-- Witness for C2: with 2 active ICBMs, budget 5 and 3 targets the split
yields exactly 3 children. -/
theorem c2_mirv_spawns_min_children_witness :
    ((2 : Int) ≤ 8 ∧ (0 : Int) ≤ 5)
    ∧ (((c2Parent.mirv c2Targets 2 5).1.length : Int)
        = min (min 3 (8 - 2)) (min 5 (c2Targets.length : Int))
      ∧ (c2Parent.mirv c2Targets 2 5).1.map
          (fun c => (c.target_x, c.target_y))
        = c2Targets.take (c2Parent.mirv c2Targets 2 5).1.length
      ∧ (∀ c ∈ (c2Parent.mirv c2Targets 2 5).1,
          c.entry_x = c2Parent.current_x ∧ c.entry_y = c2Parent.current_y ∧
          c.can_mirv = false ∧ c.speed = c2Parent.speed)
      ∧ (c2Targets.Nodup →
          ((c2Parent.mirv c2Targets 2 5).1.map
            (fun c => (c.target_x, c.target_y))).Nodup)
      ∧ (c2Parent.mirv c2Targets 2 5).2.has_mirved = true) :=
  ⟨⟨by decide, by decide⟩,
   c2_mirv_spawns_min_children c2Parent c2Targets 2 5 (by decide) (by decide)⟩

/-- Unrolling `checkBonusLoop`: with a positive threshold and enough fuel it
awards `max 0 ((score - last) / threshold)` times, adding that many
thresholds to `last` and wrapping the counter modulo 256. -/
theorem checkBonusLoop_spec (t : Int) (ht : 0 < t) (fuel : Nat) :
    ∀ (score last bonus : Int) (awarded : Nat),
      0 ≤ bonus → bonus < 256 →
      max 0 ((score - last) / t) ≤ (fuel : Int) →
      checkBonusLoop t fuel score last bonus awarded
        = (last + max 0 ((score - last) / t) * t,
           (bonus + max 0 ((score - last) / t)) % 256,
           awarded + (max 0 ((score - last) / t)).toNat) := by
  induction fuel with
  | zero =>
    intro score last bonus awarded hb hb2 hle
    have h0 : max 0 ((score - last) / t) = 0 := by omega
    rw [checkBonusLoop, h0]
    simp only [Prod.mk.injEq]
    refine ⟨by ring, by omega, by omega⟩
  | succ n ih =>
    intro score last bonus awarded hb hb2 hle
    rw [checkBonusLoop]
    split
    · rename_i hcond
      have hd1 : 1 ≤ (score - last) / t :=
        (Int.le_ediv_iff_mul_le ht).mpr (by omega)
      have hstep : (score - (last + t)) / t = (score - last) / t - 1 := by
        have h4 := Int.add_mul_ediv_right (score - last - t) 1 (ne_of_gt ht)
        have h2 : score - last - t + 1 * t = score - last := by ring
        rw [h2] at h4
        have h3 : score - (last + t) = score - last - t := by ring
        rw [h3]
        omega
      rw [ih score (last + t) ((bonus + 1) % 256) (awarded + 1)
        (by omega) (by omega) (by rw [hstep]; omega)]
      rw [hstep]
      have e1 : max 0 ((score - last) / t - 1) = (score - last) / t - 1 := by
        omega
      have e2 : max 0 ((score - last) / t) = (score - last) / t := by omega
      rw [e1, e2]
      simp only [Prod.mk.injEq]
      refine ⟨by ring, by omega, by omega⟩
    · rename_i hcond
      have hd0 : (score - last) / t ≤ 0 := by
        by_contra hpos
        push_neg at hpos
        have := (Int.le_ediv_iff_mul_le ht).mp hpos
        omega
      have h0 : max 0 ((score - last) / t) = 0 := by omega
      rw [h0]
      simp only [Prod.mk.injEq]
      refine ⟨by ring, by omega, by omega⟩

/-- The claim's concrete manager: bonus threshold 1 (with the default zero
counter and last-award score). -/
def c4Manager : CityManager := { mkCityManager with bonus_threshold := 1 }

set_option maxRecDepth 4000 in
/-- Claim C4: `check_bonus` awards one banked bonus city for each full
threshold multiple crossed since the last award (several per call when
needed), the counter wraps modulo 256, and with threshold 1 and the score
rising from 0 to 256 the counter ends at 0. -/
theorem c4_check_bonus_awards_and_wraps (cm : CityManager) (score : Int)
    (h : 0 < cm.bonus_threshold)
    (hb : 0 ≤ cm.bonus_cities) (hb2 : cm.bonus_cities < 256) :
    (((cm.check_bonus score).1 : Int)
        = max 0 ((score - cm.last_bonus_score) / cm.bonus_threshold))
    ∧ (cm.check_bonus score).2.bonus_cities
        = (cm.bonus_cities
            + max 0 ((score - cm.last_bonus_score) / cm.bonus_threshold)) % 256
    ∧ (cm.check_bonus score).2.last_bonus_score
        = cm.last_bonus_score
          + max 0 ((score - cm.last_bonus_score) / cm.bonus_threshold)
            * cm.bonus_threshold
    ∧ (c4Manager.check_bonus 256).2.bonus_cities = 0 := by
  have hfuel : max 0 ((score - cm.last_bonus_score) / cm.bonus_threshold)
      ≤ (((score - cm.last_bonus_score).toNat : Nat) : Int) := by
    rcases le_or_lt 0 (score - cm.last_bonus_score) with hpos | hneg
    · have := Int.ediv_le_self cm.bonus_threshold hpos
      omega
    · have hd0 : (score - cm.last_bonus_score) / cm.bonus_threshold ≤ 0 := by
        by_contra hpos
        push_neg at hpos
        have := (Int.le_ediv_iff_mul_le h).mp hpos
        omega
      omega
  unfold CityManager.check_bonus
  rw [if_neg (by omega)]
  dsimp only
  rw [checkBonusLoop_spec cm.bonus_threshold h _ score cm.last_bonus_score
    cm.bonus_cities 0 hb hb2 hfuel]
  dsimp only
  refine ⟨by omega, rfl, rfl, by decide⟩

/-- Witness for C4: the default manager (threshold 10000) awarded at score
25000 banks two bonus cities. -/
theorem c4_check_bonus_awards_and_wraps_witness :
    ((0 : Int) < mkCityManager.bonus_threshold
      ∧ 0 ≤ mkCityManager.bonus_cities ∧ mkCityManager.bonus_cities < 256)
    ∧ ((((mkCityManager.check_bonus 25000).1 : Int)
        = max 0 ((25000 - mkCityManager.last_bonus_score)
            / mkCityManager.bonus_threshold))
      ∧ (mkCityManager.check_bonus 25000).2.bonus_cities
        = (mkCityManager.bonus_cities
            + max 0 ((25000 - mkCityManager.last_bonus_score)
                / mkCityManager.bonus_threshold)) % 256
      ∧ (mkCityManager.check_bonus 25000).2.last_bonus_score
        = mkCityManager.last_bonus_score
          + max 0 ((25000 - mkCityManager.last_bonus_score)
              / mkCityManager.bonus_threshold) * mkCityManager.bonus_threshold
      ∧ (c4Manager.check_bonus 256).2.bonus_cities = 0) :=
  ⟨⟨by decide, by decide, by decide⟩,
   c4_check_bonus_awards_and_wraps mkCityManager 25000 (by decide) (by decide)
     (by decide)⟩

/-- Every `destroy_city` call fails without mutation once the per-wave cap
is reached. -/
theorem destroy_city_fails_of_cap (cm : CityManager) (idx : Int)
    (h : MAX_CITIES_DESTROYED_PER_WAVE ≤ cm.cities_destroyed_this_wave) :
    cm.destroy_city idx = (false, cm) := by
  unfold CityManager.destroy_city
  split_ifs with h1
  · rfl
  · dsimp only
    split <;> rfl

/-- `find?` over an enumeration returns `none` when the underlying predicate
fails on every list element. -/
theorem find_enumFrom_eq_none (p : City → Bool) (l : List City) (n : Nat)
    (h : ∀ c ∈ l, p c = false) :
    (List.enumFrom n l).find? (fun q => p q.2) = none := by
  induction l generalizing n with
  | nil => rfl
  | cons c rest ih =>
    simp only [List.enumFrom, List.find?]
    rw [h c (by simp)]
    exact ih (n + 1) (fun d hd => h d (by simp [hd]))

/-- Claim C5: once 3 cities have been destroyed in the current wave, every
further `destroy_city` / `destroy_city_at` call fails and destroys nothing;
a call also fails when the target city is already destroyed or (for
`destroy_city_at`) when no non-destroyed city lies within the radius; and
`start_wave` resets the per-wave counter to 0. -/
theorem c5_per_wave_destruction_cap (cm : CityManager) (idx x y radius : Int) :
    (MAX_CITIES_DESTROYED_PER_WAVE ≤ cm.cities_destroyed_this_wave →
      cm.destroy_city idx = (false, cm)
      ∧ cm.destroy_city_at x y radius = (false, cm))
    ∧ (0 ≤ idx → idx < (cm.cities.length : Int) →
        (cm.cities.getD idx.toNat (mkCity 0 0)).is_destroyed = true →
        cm.destroy_city idx = (false, cm))
    ∧ ((∀ c ∈ cm.cities, c.is_destroyed = true ∨
          ¬(|c.position_x - x| ≤ radius ∧ |c.position_y - y| ≤ radius)) →
        cm.destroy_city_at x y radius = (false, cm))
    ∧ cm.start_wave.cities_destroyed_this_wave = 0 := by
  refine ⟨?_, ?_, ?_, rfl⟩
  · intro h
    refine ⟨destroy_city_fails_of_cap cm idx h, ?_⟩
    unfold CityManager.destroy_city_at
    cases hf : firstCityInRange cm.cities x y radius with
    | none => rfl
    | some i => exact destroy_city_fails_of_cap cm (i : Int) h
  · intro h0 hlen hdes
    unfold CityManager.destroy_city
    rw [if_neg (by omega)]
    dsimp only
    rw [if_pos hdes]
  · intro hall
    unfold CityManager.destroy_city_at
    have hnone : firstCityInRange cm.cities x y radius = none := by
      unfold firstCityInRange
      rw [List.enum]
      rw [find_enumFrom_eq_none
        (fun c => !c.is_destroyed &&
          decide (|c.position_x - x| ≤ radius ∧ |c.position_y - y| ≤ radius))
        cm.cities 0 ?_]
      · rfl
      · intro c hc
        rcases hall c hc with hd | hr
        · simp [hd]
        · simp [hr]
    rw [hnone]

/-- A manager that has already lost 3 cities this wave; its first city is a
crater and its second is far from the origin. -/
def c5Manager : CityManager :=
  { cities := [(mkCity 48 216).destroy, mkCity 208 216],
    bonus_cities := 0, bonus_threshold := BONUS_CITY_POINTS,
    cities_destroyed_this_wave := 3, last_bonus_score := 0 }

/-- Witness for C5: with the cap reached both destruction entry points fail
at a concrete manager, and `start_wave` resets the counter. -/
theorem c5_per_wave_destruction_cap_witness :
    (MAX_CITIES_DESTROYED_PER_WAVE ≤ c5Manager.cities_destroyed_this_wave
      ∧ (0 : Int) ≤ 0 ∧ (0 : Int) < (c5Manager.cities.length : Int)
      ∧ (c5Manager.cities.getD (0 : Int).toNat (mkCity 0 0)).is_destroyed
          = true
      ∧ (∀ c ∈ c5Manager.cities, c.is_destroyed = true ∨
          ¬(|c.position_x - 300| ≤ 10 ∧ |c.position_y - 300| ≤ 10)))
    ∧ (c5Manager.destroy_city 0 = (false, c5Manager)
      ∧ c5Manager.destroy_city_at 300 300 10 = (false, c5Manager)
      ∧ c5Manager.destroy_city 0 = (false, c5Manager)
      ∧ c5Manager.destroy_city_at 300 300 10 = (false, c5Manager)
      ∧ c5Manager.start_wave.cities_destroyed_this_wave = 0) :=
  ⟨⟨by decide, by decide, by decide, by decide, by decide⟩,
   ⟨((c5_per_wave_destruction_cap c5Manager 0 300 300 10).1 (by decide)).1,
    ((c5_per_wave_destruction_cap c5Manager 0 300 300 10).1 (by decide)).2,
    (c5_per_wave_destruction_cap c5Manager 0 300 300 10).2.1 (by decide)
      (by decide) (by decide),
    (c5_per_wave_destruction_cap c5Manager 0 300 300 10).2.2.1 (by decide),
    (c5_per_wave_destruction_cap c5Manager 0 300 300 10).2.2.2⟩⟩

/-- `addAbmLoop` finds no slot when every slot is occupied by an active
ABM. -/
theorem addAbmLoop_full (l : List (Option ABM)) (a : ABM)
    (h : ∀ s ∈ l, abmSlotFree s = false) : addAbmLoop l a = none := by
  induction l with
  | nil => rfl
  | cons s rest ih =>
    unfold addAbmLoop
    rw [h s (by simp)]
    simp only [Bool.false_eq_true, if_false]
    rw [ih (fun d hd => h d (by simp [hd]))]

/-- In an otherwise fully active table, `addAbmLoop` places the new ABM
exactly into the one freed slot. -/
theorem addAbmLoop_freed_slot (a : ABM) :
    ∀ (l : List (Option ABM)) (j : Nat) (v : Option ABM),
      (∀ s ∈ l, abmSlotFree s = false) → j < l.length →
      abmSlotFree v = true →
      addAbmLoop (l.set j v) a = some (l.set j (some a)) := by
  intro l
  induction l with
  | nil => intro j v _ hj _; exact absurd hj (by simp)
  | cons s rest ih =>
    intro j v hall hj hfree
    cases j with
    | zero =>
      simp only [List.set]
      unfold addAbmLoop
      rw [hfree]
      rfl
    | succ k =>
      simp only [List.set]
      unfold addAbmLoop
      rw [hall s (by simp)]
      simp only [Bool.false_eq_true, if_false]
      rw [ih k v (fun d hd => hall d (by simp [hd])) (by simpa using hj) hfree]

/-- Claim C7: when all 8 ABM slots hold active ABMs, `add_abm` rejects the
admission and changes no slot; once any one slot is freed (its occupant no
longer active), the same admission succeeds and occupies exactly that first
free slot. -/
theorem c7_abm_capacity_and_reuse (mgr : MissileSlotManager) (a : ABM)
    (j : Nat) (v : Option ABM) :
    (mgr.abm_slots.length = MAX_ABM_SLOTS →
      (∀ s ∈ mgr.abm_slots, abmSlotFree s = false) →
      mgr.add_abm a = (false, mgr))
    ∧ (mgr.abm_slots.length = MAX_ABM_SLOTS →
        (∀ s ∈ mgr.abm_slots, abmSlotFree s = false) →
        j < mgr.abm_slots.length → abmSlotFree v = true →
        MissileSlotManager.add_abm
          { mgr with abm_slots := mgr.abm_slots.set j v } a
          = (true, { mgr with abm_slots := mgr.abm_slots.set j (some a) })) := by
  constructor
  · intro _ hall
    unfold MissileSlotManager.add_abm
    rw [addAbmLoop_full mgr.abm_slots a hall]
  · intro _ hall hj hfree
    unfold MissileSlotManager.add_abm
    dsimp only
    rw [addAbmLoop_freed_slot a mgr.abm_slots j v hall hj hfree]

/-- An active ABM used to fill all 8 slots. -/
def c7ActiveAbm : ABM := mkABM 1 128 220 100 100

/-- A slot manager whose 8 ABM slots all hold active ABMs. -/
def c7Manager : MissileSlotManager :=
  { abm_slots := List.replicate 8 (some c7ActiveAbm),
    icbm_slots := List.replicate 8 none, flier_slot := none }

/-- The 9th ABM whose admission is attempted. -/
def c7NewAbm : ABM := mkABM 0 32 220 60 80

/-- Witness for C7: admission into the full table fails; after slot 3's
occupant is deactivated the same admission succeeds into slot 3. -/
theorem c7_abm_capacity_and_reuse_witness :
    (c7Manager.abm_slots.length = MAX_ABM_SLOTS
      ∧ (∀ s ∈ c7Manager.abm_slots, abmSlotFree s = false)
      ∧ (3 : Nat) < c7Manager.abm_slots.length
      ∧ abmSlotFree (some c7ActiveAbm.deactivate) = true)
    ∧ (c7Manager.add_abm c7NewAbm = (false, c7Manager)
      ∧ MissileSlotManager.add_abm
          { c7Manager with abm_slots :=
              c7Manager.abm_slots.set 3 (some c7ActiveAbm.deactivate) }
          c7NewAbm
        = (true, { c7Manager with abm_slots :=
            c7Manager.abm_slots.set 3 (some c7NewAbm) })) :=
  ⟨⟨by decide, by decide, by decide, by decide⟩,
   (c7_abm_capacity_and_reuse c7Manager c7NewAbm 3
       (some c7ActiveAbm.deactivate)).1 (by decide) (by decide),
   (c7_abm_capacity_and_reuse c7Manager c7NewAbm 3
       (some c7ActiveAbm.deactivate)).2 (by decide) (by decide) (by decide)
     (by decide)⟩

/-- Claim C8: when the DefenseManager fire succeeds (the silo's ammo is
decremented and an ABM produced) but Slot Manager admission fails, the call
returns failure, the slot table is unchanged, and the ammo decrement is not
reversed: the silo ends with one round fewer. -/
theorem c8_silo_decrement_not_reversed (g : Game) (silo_index tx ty : Int)
    (abm : ABM) (d2 : DefenseManager) (m2 : MissileSlotManager)
    (hfire : g.defences.fire silo_index tx ty g.missiles.active_abm_count
      = (some abm, d2))
    (hadd : g.missiles.add_abm abm = (false, m2)) :
    g.fire_from_silo silo_index tx ty
      = (false, { g with defences := d2, missiles := m2 })
    ∧ m2 = g.missiles
    ∧ (d2.silos.getD silo_index.toNat (mkDefenseSilo 0 0 0)).abm_count
      = (g.defences.silos.getD silo_index.toNat
          (mkDefenseSilo 0 0 0)).abm_count - 1 := by
  refine ⟨?_, ?_, ?_⟩
  · unfold Game.fire_from_silo
    dsimp only
    rw [hfire]
    dsimp only
    rw [hadd]
  · unfold MissileSlotManager.add_abm at hadd
    cases haml : addAbmLoop g.missiles.abm_slots abm with
    | some l =>
      rw [haml] at hadd
      simp at hadd
    | none =>
      rw [haml] at hadd
      rw [Prod.mk.injEq] at hadd
      exact hadd.2.symm
  · unfold DefenseManager.fire at hfire
    split_ifs at hfire with h1 h2
    · simp at hfire
    · simp at hfire
    · push_neg at h2
      unfold DefenseSilo.fire at hfire
      dsimp only at hfire
      split_ifs at hfire with h3
      · simp at hfire
      · rw [Prod.mk.injEq] at hfire
        rw [← hfire.2]
        dsimp only
        rw [List.getD_eq_getElem?_getD,
          List.getElem?_set_self (by simpa using (by omega :
            silo_index.toNat < g.defences.silos.length))]
        rfl

/-- A game whose ABM slot table is the empty list (a dataclass caller can
inject any list), so every admission fails while the global-cap check still
passes. -/
def c8Game : Game :=
  { mkGame with state := .RUNNING,
                missiles := { mkMissileSlotManager with abm_slots := [] } }

/-- The ABM produced by silo 0 of the default defences. -/
def c8Abm : ABM := mkABM 0 32 220 100 100

/-- The defences after silo 0 has spent one round. -/
def c8Defences : DefenseManager :=
  { silos := [{ mkDefenseSilo 0 32 220 with abm_count := 9 },
              mkDefenseSilo 1 128 220, mkDefenseSilo 2 224 220] }

/-- Witness for C8: the silo fire succeeds and decrements ammo 10 → 9, the
admission fails, and the decrement is not reversed. -/
theorem c8_silo_decrement_not_reversed_witness :
    (c8Game.defences.fire 0 100 100 c8Game.missiles.active_abm_count
        = (some c8Abm, c8Defences)
      ∧ c8Game.missiles.add_abm c8Abm = (false, c8Game.missiles))
    ∧ (c8Game.fire_from_silo 0 100 100
        = (false, { c8Game with defences := c8Defences,
                                missiles := c8Game.missiles })
      ∧ c8Game.missiles = c8Game.missiles
      ∧ (c8Defences.silos.getD (0 : Int).toNat
            (mkDefenseSilo 0 0 0)).abm_count
        = (c8Game.defences.silos.getD (0 : Int).toNat
            (mkDefenseSilo 0 0 0)).abm_count - 1) :=
  ⟨⟨by decide, by decide⟩,
   c8_silo_decrement_not_reversed c8Game 0 100 100 c8Abm c8Defences
     c8Game.missiles (by decide) (by decide)⟩

/-- An ICBM one tick away from reaching its target right above city 0
(at (48, 216)): after `update` it is at (48, 220), inactive. -/
def c1IcbmA : ICBM :=
  { entry_x := 48, entry_y := 0, target_x := 48, target_y := 216, speed := 5,
    current_x_fp := to_fixed 48, current_y_fp := to_fixed 215,
    x_increment := 0, y_increment := to_fixed 5,
    can_mirv := false, has_mirved := false, is_active := true }

/-- The ICBM table of scenario A: `c1IcbmA` in slot 0, the rest empty. -/
def c1SlotsA : List (Option IcbmEnt) :=
  some (.icbm c1IcbmA) :: List.replicate 7 none

/-- A RUNNING game holding only `c1IcbmA`; no explosions are active. -/
def c1GameA : Game :=
  { mkGame with
      state := .RUNNING,
      icbms_remaining_this_wave := 5,
      missiles := { mkMissileSlotManager with icbm_slots := c1SlotsA } }

/-- An ICBM still in flight at (48, 210), far from its target. -/
def c1IcbmB : ICBM :=
  { entry_x := 48, entry_y := 0, target_x := 48, target_y := 216, speed := 1,
    current_x_fp := to_fixed 48, current_y_fp := to_fixed 210,
    x_increment := 0, y_increment := to_fixed 1,
    can_mirv := false, has_mirved := false, is_active := true }

/-- An active explosion (group 0) whose octagon covers (48, 211). -/
def c1Explosion : Explosion :=
  { center_x := 48, center_y := 211, max_radius := 13, expand_rate := 1,
    hold_frames := 10, contract_rate := 1, group_id := 0,
    current_radius := 10, state := .HOLDING, frame_counter := 0,
    is_active := true }

/-- The ICBM table of scenario B: `c1IcbmB` in slot 0, the rest empty. -/
def c1SlotsB : List (Option IcbmEnt) :=
  some (.icbm c1IcbmB) :: List.replicate 7 none

/-- The explosion table of scenario B: `c1Explosion` in slot 0 (group 0). -/
def c1ExplosionSlots : List (Option Explosion) :=
  some c1Explosion :: List.replicate 19 none

/-- A RUNNING game holding `c1IcbmB` and the explosion that will shoot it
down this tick. -/
def c1GameB : Game :=
  { mkGame with
      state := .RUNNING,
      icbms_remaining_this_wave := 5,
      missiles := { mkMissileSlotManager with icbm_slots := c1SlotsB },
      explosions := { mkExplosionManager with slots := c1ExplosionSlots } }

/-- Claim C1 is violated by `Game.update`: scenario A — an ICBM that becomes
inactive this tick by reaching its target (no explosion exists) is purged by
`clear_inactive` in step 1, so the step-5 scan makes no city-destruction
attempt and city 0, directly under the impact point, survives; scenario B —
an ICBM that does not reach its target but is shot down by an explosion in
step 3 is still in its slot at step 5, a destruction attempt is made at its
mid-air position, and city 0 is destroyed. -/
theorem c1_city_destruction_scan_divergence :
    (c1IcbmA.is_active = true ∧ c1IcbmA.update.is_active = false
      ∧ c1GameA.explosions.active_count = 0
      ∧ c1GameA.tickPhase1to4.step5Positions = []
      ∧ (c1GameA.update).2.cities.active_count = 6
      ∧ ((c1GameA.update).2.cities.cities.getD 0 (mkCity 0 0)).is_destroyed
          = false)
    ∧ (c1IcbmB.is_active = true ∧ c1IcbmB.update.is_active = true
      ∧ c1GameB.tickPhase1to4.step5Positions = [(48, 211)]
      ∧ ((c1GameB.update).2.cities.cities.getD 0 (mkCity 0 0)).is_destroyed
          = true
      ∧ (c1GameB.update).2.cities.active_count = 5) := by
  decide

end MC
